import Mathlib

/-!
Shallow embedding of `src/yolov3_train.py` (discdisk/YOLOv3-chainer).

The script's `main` parses command-line flags, assembles the model and
optimizer, and registers a fixed set of training-loop extensions on a
chainer `Trainer`.  We embed the run configuration that `main` computes as
a pure function of the parsed arguments, together with the pure trigger /
scheduler logic the configuration refers to.
-/

namespace YOLOv3Train

/-- Parsed command-line arguments (the `argparse` declarations of
`yolov3_train.py`, lines 25-44).  Floats are embedded as rationals. -/
structure Args where
  names : Option String
  train : Option String
  valid : String
  detection : String
  batchsize : Int
  iteration : Int
  gpus : List Int
  out : String
  seed : Int
  display_interval : Int
  snapshot_interval : Int
  ignore_thresh : ℚ
  thresh : ℚ
  darknet : String
  darknet_class : Int
  steps : List Int
  scales : List ℚ
  deriving DecidableEq, Repr

/-- The command line as handed to `parse_args`: for each flag, the value
supplied on the command line if any.  (Type conversion is not at issue in
any claim, so values are carried already typed.) -/
structure CmdLine where
  names : Option String := none
  train : Option String := none
  valid : Option String := none
  detection : Option String := none
  batchsize : Option Int := none
  iteration : Option Int := none
  gpus : Option (List Int) := none
  out : Option String := none
  seed : Option Int := none
  display_interval : Option Int := none
  snapshot_interval : Option Int := none
  ignore_thresh : Option ℚ := none
  thresh : Option ℚ := none
  darknet : Option String := none
  darknet_class : Option Int := none
  steps : Option (List Int) := none
  scales : Option (List ℚ) := none
  deriving DecidableEq, Repr

/-- The argparse declaration table: for each flag, whether `required=True`
was passed and whether the command line provides it.  In the source, no
`add_argument` call passes `required`, and argparse defaults `required` to
`False` for every `--`-prefixed option. -/
def argTable (c : CmdLine) : List (String × Bool × Bool) :=
  [("--names", false, c.names.isSome),
   ("--train", false, c.train.isSome),
   ("--valid", false, c.valid.isSome),
   ("--detection", false, c.detection.isSome),
   ("--batchsize", false, c.batchsize.isSome),
   ("--iteration", false, c.iteration.isSome),
   ("--gpus", false, c.gpus.isSome),
   ("--out", false, c.out.isSome),
   ("--seed", false, c.seed.isSome),
   ("--display_interval", false, c.display_interval.isSome),
   ("--snapshot_interval", false, c.snapshot_interval.isSome),
   ("--ignore_thresh", false, c.ignore_thresh.isSome),
   ("--thresh", false, c.thresh.isSome),
   ("--darknet", false, c.darknet.isSome),
   ("--darknet_class", false, c.darknet_class.isSome),
   ("--steps", false, c.steps.isSome),
   ("--scales", false, c.scales.isSome)]

/-- Filling in defaults, as declared on lines 26-43: `--names` and
`--train` have no explicit default (argparse gives them `None`), the other
flags carry the defaults shown in the source. -/
def argsFrom (c : CmdLine) : Args :=
  { names := c.names
    train := c.train
    valid := c.valid.getD ""
    detection := c.detection.getD ""
    batchsize := c.batchsize.getD 8
    iteration := c.iteration.getD 50200
    gpus := c.gpus.getD []
    out := c.out.getD "yolov3-result"
    seed := c.seed.getD 0
    display_interval := c.display_interval.getD 100
    snapshot_interval := c.snapshot_interval.getD 100
    ignore_thresh := c.ignore_thresh.getD (1/2)
    thresh := c.thresh.getD (1/2)
    darknet := c.darknet.getD ""
    darknet_class := c.darknet_class.getD (-1)
    steps := c.steps.getD [-10200, -5200]
    scales := c.scales.getD [1/10, 1/10] }

/-- `parser.parse_args()`: argparse exits with a usage error exactly when
some flag declared `required=True` is missing from the command line;
otherwise it returns the parsed namespace. -/
def parseArgs (c : CmdLine) : Except String Args :=
  if (argTable c).all (fun e => !e.2.1 || e.2.2) then
    Except.ok (argsFrom c)
  else
    Except.error "usage"

/-- The arguments produced by an empty command line. -/
def defaultArgs : Args := argsFrom {}

/-- Step-boundary resolution, lines 139-142: each entry of `--steps` is
visited once and every negative entry `v` is replaced by
`args.iteration + v`; nonnegative entries are left as they are. -/
def resolveSteps (iteration : Int) (steps : List Int) : List Int :=
  steps.map (fun v => if v < 0 then iteration + v else v)

/-- Darknet53 class-count selection, line 57:
`args.darknet_class if args.darknet_class > 0 else len(class_names)`. -/
def darknetClassOf (darknet_class : Int) (classNames : List String) : Int :=
  if darknet_class > 0 then darknet_class else (classNames.length : Int)

/-- `device`, lines 63-65: stays `-1` when `--gpus` is empty, otherwise
becomes the first listed GPU id. -/
def deviceOf (gpus : List Int) : Int :=
  match gpus with
  | [] => -1
  | g :: _ => g

/-- The updater constructed on lines 84-92: a `StandardUpdater` on a single
device, or a `ParallelUpdater` over a name-to-device map. -/
inductive UpdaterCfg where
  | standard (device : Int)
  | parallel (devices : List (String × Int))
  deriving DecidableEq, Repr

/-- Device map for `ParallelUpdater`, lines 88-90: `'main'` is
`args.gpus[0]` and each remaining id `g` is keyed `'gpu{g}'`. -/
def deviceMap (gpus : List Int) : List (String × Int) :=
  match gpus with
  | [] => []
  | g :: rest => ("main", g) :: rest.map (fun x => ("gpu" ++ toString x, x))

/-- Updater selection, lines 84-92: `StandardUpdater` when
`len(args.gpus) <= 1`, else `ParallelUpdater` over the device map. -/
def updaterOf (gpus : List Int) : UpdaterCfg :=
  if gpus.length ≤ 1 then UpdaterCfg.standard (deviceOf gpus)
  else UpdaterCfg.parallel (deviceMap gpus)

/-- Optimizer hyperparameters, lines 71-74. -/
structure OptimizerCfg where
  lr : ℚ
  weightDecay : ℚ
  gradClip : ℚ
  deriving DecidableEq, Repr

/-- Trigger attached to a snapshot extension: either a plain
`(n, 'iteration')` interval trigger or a `MinValueTrigger` over a metric
key checked every `interval` iterations. -/
inductive TriggerCfg where
  | interval (n : Int)
  | minValue (key : String) (interval : Int)
  deriving DecidableEq, Repr

/-- A `snapshot_object` registration: target filename and trigger. -/
structure SnapshotCfg where
  filename : String
  trigger : TriggerCfg
  deriving DecidableEq, Repr

/-- A reporting-extension registration: how often it fires (in iterations)
and whether it mutates training state. -/
structure ExtensionReg where
  interval : Int
  mutatesState : Bool
  deriving DecidableEq, Repr

/-- The `DarknetShift` learning-rate schedule extension as constructed on
lines 147-150. -/
structure DarknetShiftCfg where
  policy : String
  maxIter : Int
  burnIn : Int
  steps : List Int
  scales : List ℚ
  deriving DecidableEq, Repr

/-- The `CropSizeUpdater` extension as constructed on lines 151-153:
candidate size list and cutoff iteration. -/
structure CropSizeUpdaterCfg where
  sizes : List Int
  cutoff : Int
  deriving DecidableEq, Repr

/-- Everything `main` computes (lines 55-162) that the verified claims
refer to, as a pure function of the parsed arguments and of the class-name
list loaded from `--names`. -/
structure Config where
  darknetClassCount : Option Int
  modelToGpu : Bool
  updater : UpdaterCfg
  optimizer : OptimizerCfg
  sharedMem : Int
  stopTrigger : Int
  snapshotKey : String
  logReport : ExtensionReg
  plotReport : ExtensionReg
  printReport : ExtensionReg
  progressBar : ExtensionReg
  bestSnapshot : SnapshotCfg
  backupSnapshot : SnapshotCfg
  finalSnapshot : SnapshotCfg
  darknetShift : DarknetShiftCfg
  cropSizeUpdater : CropSizeUpdaterCfg
  deriving DecidableEq, Repr

/-- The run configuration `main` builds.  `classNames` stands for
`load_list(args.names)`.  Notes tying fields to source lines:
* `darknetClassCount`: lines 55-60, the backbone is built only when
  `len(args.darknet) > 0`;
* `modelToGpu`: line 68-69, `model.to_gpu()` only when `len(args.gpus) == 1`;
* `sharedMem`: line 82;
* `stopTrigger`: line 94, `(args.iteration, 'iteration')`;
* `snapshotKey`: lines 101 and 107;
* reporting extensions: lines 117-126 — `LogReport`, `PlotReport` (the
  latter registered only when `PlotReport.available()`), and `PrintReport`
  are triggered by `display_interval`, while `ProgressBar` is constructed
  with `update_interval=1`; chainer documents all four as observational,
  and the spec records that they have no effect on training state;
* snapshots: lines 128-137;
* `darknetShift`: lines 147-150, fed the steps list after the in-place
  resolution of lines 139-142;
* `cropSizeUpdater`: lines 151-153. -/
def mainConfig (a : Args) (classNames : List String) : Config :=
  { darknetClassCount :=
      if a.darknet.length > 0 then some (darknetClassOf a.darknet_class classNames)
      else none
    modelToGpu := a.gpus.length == 1
    updater := updaterOf a.gpus
    optimizer := { lr := 1/1000, weightDecay := 5/10000, gradClip := 10 }
    sharedMem := (448 ^ 2 * 3 + (1 + 4) * 100) * 4
    stopTrigger := a.iteration
    snapshotKey := if a.valid.length > 0 then "validation/main/loss" else "main/loss"
    logReport := { interval := a.display_interval, mutatesState := false }
    plotReport := { interval := a.display_interval, mutatesState := false }
    printReport := { interval := a.display_interval, mutatesState := false }
    progressBar := { interval := 1, mutatesState := false }
    bestSnapshot :=
      { filename := "yolov3_snapshot.npz"
        trigger := TriggerCfg.minValue
          (if a.valid.length > 0 then "validation/main/loss" else "main/loss")
          a.snapshot_interval }
    backupSnapshot :=
      { filename := "yolov3_backup.npz"
        trigger := TriggerCfg.interval a.snapshot_interval }
    finalSnapshot :=
      { filename := "yolov3_final.npz"
        trigger := TriggerCfg.interval a.iteration }
    darknetShift :=
      { policy := "steps"
        maxIter := a.iteration
        burnIn := 1000
        steps := resolveSteps a.iteration a.steps
        scales := a.scales }
    cropSizeUpdater :=
      { sizes := (List.range 5).map (fun i => (10 + (i : Int)) * 32)
        cutoff := a.iteration - 200 } }

/-- Chainer's `IntervalTrigger` with unit `'iteration'`: after iteration
`t` (counted from 1) the trigger fires iff `t` is a multiple of the
period.  Both the trainer stop trigger (line 94) and the backup/final
snapshot triggers (lines 132-137) are of this shape. -/
def intervalFires (n t : Int) : Bool :=
  t % n == 0

/-- One check of chainer's `MinValueTrigger` (line 130): fires when no
best value has been recorded yet, or when the observed value is strictly
below the recorded best. -/
def minValueFires (best : Option ℚ) (v : ℚ) : Bool :=
  match best with
  | none => true
  | some b => decide (v < b)

/-- The best-value register after one check: the observed value is
recorded exactly when the trigger fired. -/
def bestStep (best : Option ℚ) (v : ℚ) : Option ℚ :=
  if minValueFires best v then some v else best

/-- The best-value register after a sequence of checks. -/
def bestAfter (vs : List ℚ) : Option ℚ :=
  vs.foldl bestStep none

/-- Whether the `MinValueTrigger` fires at the `i`-th check (0-based) of
the metric sequence `vs`: the checks before `i` have run, and the value
observed at check `i` is compared with the recorded best. -/
def minTriggerFiresAt (vs : List ℚ) (i : Nat) : Bool :=
  minValueFires (bestAfter (vs.take i)) (vs.getD i 0)

/-- Modelled from the spec: `lib/extensions/crop_size_updater.py` is not
under `src/`.  Per the spec the crop-size scheduler is deterministic in
the iteration index: before the cutoff it steps through the candidate
list as training proceeds (progressively larger crops over the bounded
range `[0, cutoff)`), and at or past the cutoff the size is frozen at the
final candidate. -/
def cropSize (sizes : List Int) (cutoff : Int) (t : Nat) : Int :=
  if (t : Int) < cutoff then
    sizes.getD (t * sizes.length / cutoff.toNat) 0
  else
    sizes.getLastD 0

/-! ## Theorems -/

/-- C1: every `--steps` entry `v` with `v < 0` resolves to
`args.iteration + v`, every entry with `v >= 0` is left unchanged, and the
`DarknetShift` learning-rate schedule extension is constructed from the
(once-)resolved list. -/
theorem steps_resolved_before_shift (a : Args) (ns : List String) (i : Nat)
    (h : i < a.steps.length) :
    (mainConfig a ns).darknetShift.steps = resolveSteps a.iteration a.steps ∧
    (mainConfig a ns).darknetShift.steps.length = a.steps.length ∧
    (a.steps.getD i 0 < 0 →
      (mainConfig a ns).darknetShift.steps.getD i 0 = a.iteration + a.steps.getD i 0) ∧
    (0 ≤ a.steps.getD i 0 →
      (mainConfig a ns).darknetShift.steps.getD i 0 = a.steps.getD i 0) := by
  have hl : i < (resolveSteps a.iteration a.steps).length := by
    simpa [resolveSteps] using h
  have key : (resolveSteps a.iteration a.steps).getD i 0 =
      if a.steps.getD i 0 < 0 then a.iteration + a.steps.getD i 0
      else a.steps.getD i 0 := by
    rw [List.getD_eq_getElem _ _ hl, List.getD_eq_getElem _ _ h]
    simp [resolveSteps]
  refine ⟨rfl, by simp [mainConfig, resolveSteps], ?_, ?_⟩ <;> intro hv
  · show (resolveSteps a.iteration a.steps).getD i 0 = _
    rw [key, if_pos hv]
  · show (resolveSteps a.iteration a.steps).getD i 0 = _
    rw [key, if_neg (not_lt.2 hv)]

/-- Witness for C1 at concrete inputs: with the default arguments the
first step `-10200` resolves to `50200 - 10200 = 40000`; with an explicit
nonnegative entry `5` the entry is unchanged. -/
theorem steps_resolved_before_shift_witness :
    (mainConfig defaultArgs []).darknetShift.steps.getD 0 0 = 40000 ∧
    (mainConfig (argsFrom { steps := some [-10200, 5] }) []).darknetShift.steps.getD 1 0 = 5 :=
  ⟨((steps_resolved_before_shift defaultArgs [] 0 (by decide)).2.2.1
      (by decide)).trans (by decide),
   (steps_resolved_before_shift (argsFrom { steps := some [-10200, 5] }) [] 1
      (by decide)).2.2.2 (by decide)⟩

/-- C7: the updater and device placement depend only on the length of
`--gpus`: empty list gives a CPU `StandardUpdater` with device `-1` and no
`to_gpu` call; a singleton `[g]` gives a `StandardUpdater` on device `g`
with the model moved to the GPU; two or more ids give a `ParallelUpdater`
whose device map keys `gpus[0]` as `'main'` and each remaining `g` as
`'gpu{g}'`. -/
theorem updater_by_gpu_count (a : Args) (ns : List String) :
    (a.gpus = [] →
      (mainConfig a ns).updater = UpdaterCfg.standard (-1) ∧
      (mainConfig a ns).modelToGpu = false) ∧
    (∀ g, a.gpus = [g] →
      (mainConfig a ns).updater = UpdaterCfg.standard g ∧
      (mainConfig a ns).modelToGpu = true) ∧
    (∀ g r, a.gpus = g :: r → r ≠ [] →
      (mainConfig a ns).updater =
        UpdaterCfg.parallel
          (("main", g) :: r.map (fun x => ("gpu" ++ toString x, x)))) := by
  refine ⟨?_, ?_, ?_⟩
  · intro h
    simp [mainConfig, updaterOf, deviceOf, h]
  · intro g h
    simp [mainConfig, updaterOf, deviceOf, h]
  · intro g r h hr
    have h2 : ¬ a.gpus.length ≤ 1 := by
      cases r with
      | nil => exact absurd rfl hr
      | cons x xs => simp [h]
    have hd : deviceMap a.gpus =
        ("main", g) :: r.map (fun x => ("gpu" ++ toString x, x)) := by
      rw [h]
      rfl
    simp [mainConfig, updaterOf, h2, hd]

/-- Witness for C7 at concrete inputs: no GPUs, one GPU `2`, and the pair
`[0, 1]`. -/
theorem updater_by_gpu_count_witness :
    (mainConfig defaultArgs []).updater = UpdaterCfg.standard (-1) ∧
    (mainConfig (argsFrom { gpus := some [2] }) []).updater = UpdaterCfg.standard 2 ∧
    (mainConfig (argsFrom { gpus := some [0, 1] }) []).updater =
      UpdaterCfg.parallel [("main", 0), ("gpu1", 1)] :=
  ⟨((updater_by_gpu_count defaultArgs []).1 rfl).1,
   ((updater_by_gpu_count (argsFrom { gpus := some [2] }) []).2.1 2 rfl).1,
   ((updater_by_gpu_count (argsFrom { gpus := some [0, 1] }) []).2.2 0 [1] rfl
      (by decide)).trans (by decide)⟩

/-- C8: the `MultiprocessIterator` shared-memory buffer size is
`(image_area*channels + (1+box_fields)*max_boxes)*bytes_per_element` with
a 448x448 image, 3 channels, 4 coordinate fields plus 1 class field, 100
boxes and 4 bytes per element, which is exactly 2410448 bytes. -/
theorem shared_mem_buffer (a : Args) (ns : List String) :
    (mainConfig a ns).sharedMem = (448 ^ 2 * 3 + (1 + 4) * 100) * 4 ∧
    (mainConfig a ns).sharedMem = (448 * 448 * 3 + (4 + 1) * 100) * 4 ∧
    (mainConfig a ns).sharedMem = 2410448 := by
  refine ⟨rfl, ?_, ?_⟩
  · show ((448 : Int) ^ 2 * 3 + (1 + 4) * 100) * 4 = (448 * 448 * 3 + (4 + 1) * 100) * 4
    decide
  · show ((448 : Int) ^ 2 * 3 + (1 + 4) * 100) * 4 = 2410448
    decide

/-- C9: with `--darknet` supplied, the backbone class count is
`args.darknet_class` iff that value is strictly positive, and every
non-positive value (0 as well as any negative) falls back to the length
of the class-name list; without `--darknet` no backbone is built. -/
theorem darknet_class_selection (a : Args) (ns : List String) :
    (0 < a.darknet_class → 0 < a.darknet.length →
      (mainConfig a ns).darknetClassCount = some a.darknet_class) ∧
    (a.darknet_class ≤ 0 → 0 < a.darknet.length →
      (mainConfig a ns).darknetClassCount = some (ns.length : Int)) ∧
    (a.darknet.length = 0 → (mainConfig a ns).darknetClassCount = none) := by
  refine ⟨?_, ?_, ?_⟩
  · intro h1 h2
    simp [mainConfig, darknetClassOf, h1, h2]
  · intro h1 h2
    simp [mainConfig, darknetClassOf, h2, not_lt.2 h1]
  · intro h1
    simp [mainConfig, h1]

/-- Witness for C9 at concrete inputs: class count 5 is kept, while 0 and
-1 both fall back to the two-element name list. -/
theorem darknet_class_selection_witness :
    (mainConfig (argsFrom { darknet := some "w.npz", darknet_class := some 5 })
      ["a", "b"]).darknetClassCount = some 5 ∧
    (mainConfig (argsFrom { darknet := some "w.npz", darknet_class := some 0 })
      ["a", "b"]).darknetClassCount = some 2 ∧
    (mainConfig (argsFrom { darknet := some "w.npz", darknet_class := some (-1) })
      ["a", "b"]).darknetClassCount = some 2 :=
  ⟨(darknet_class_selection _ _).1 (by decide) (by decide),
   ((darknet_class_selection _ _).2.1 (by decide) (by decide)).trans (by decide),
   ((darknet_class_selection _ _).2.1 (by decide) (by decide)).trans (by decide)⟩

/-- C10: the optimizer hyperparameters and burn-in window are constants of
the script — learning rate 0.001, weight decay 0.0005, gradient-clipping
threshold 10.0, burn-in 1000 iterations — identical for every run
configuration, with no command-line flag feeding them. -/
theorem hyperparams_fixed (a b : Args) (ns ms : List String) :
    (mainConfig a ns).optimizer.lr = 1/1000 ∧
    (mainConfig a ns).optimizer.weightDecay = 5/10000 ∧
    (mainConfig a ns).optimizer.gradClip = 10 ∧
    (mainConfig a ns).darknetShift.burnIn = 1000 ∧
    (mainConfig a ns).optimizer = (mainConfig b ms).optimizer ∧
    (mainConfig a ns).darknetShift.burnIn = (mainConfig b ms).darknetShift.burnIn :=
  ⟨rfl, rfl, rfl, rfl, rfl, rfl⟩

/-- Folding `bestStep` from a recorded value computes the running minimum
of the observed values. -/
theorem foldl_bestStep_some (l : List ℚ) (b : ℚ) :
    l.foldl bestStep (some b) =
      some (l.foldl (fun x v => if v < x then v else x) b) := by
  induction l generalizing b with
  | nil => rfl
  | cons v l ih =>
    by_cases hvb : v < b <;>
      simp [List.foldl_cons, bestStep, minValueFires, hvb, ih]

/-- The branchy minimum step agrees with `min`. -/
theorem ite_min (a x : ℚ) : (if x < a then x else a) = min a x := by
  split_ifs with hx
  · exact (min_eq_right hx.le).symm
  · exact (min_eq_left (not_lt.1 hx)).symm

/-- Being below the fold of the minimum step means being below the seed
and below every listed value. -/
theorem lt_foldl_min (l : List ℚ) (a v : ℚ) :
    v < l.foldl (fun x y => if y < x then y else x) a ↔
      v < a ∧ ∀ x ∈ l, v < x := by
  induction l generalizing a with
  | nil => simp
  | cons x l ih =>
    simp only [List.foldl_cons]
    rw [ite_min, ih, lt_min_iff]
    simp only [List.mem_cons]
    constructor
    · rintro ⟨⟨h1, h2⟩, h3⟩
      exact ⟨h1, fun y hy => hy.elim (fun e => e ▸ h2) (h3 y)⟩
    · rintro ⟨h1, h2⟩
      exact ⟨⟨h1, h2 x (Or.inl rfl)⟩, fun y hy => h2 y (Or.inr hy)⟩

/-- The `MinValueTrigger` fires after history `l` on value `v` iff `v` is
strictly below every previously observed value. -/
theorem minValueFires_iff (l : List ℚ) (v : ℚ) :
    minValueFires (bestAfter l) v = true ↔ ∀ x ∈ l, v < x := by
  cases l with
  | nil => simp [bestAfter, minValueFires]
  | cons a l =>
    have hb : bestAfter (a :: l) =
        some (l.foldl (fun x y => if y < x then y else x) a) := by
      show l.foldl bestStep (bestStep none a) = _
      rw [show bestStep none a = some a from rfl]
      exact foldl_bestStep_some l a
    rw [hb]
    simp only [minValueFires, decide_eq_true_eq, lt_foldl_min, List.mem_cons]
    constructor
    · rintro ⟨h1, h2⟩
      exact fun y hy => hy.elim (fun e => e ▸ h1) (h2 y)
    · intro h
      exact ⟨h a (Or.inl rfl), fun y hy => h y (Or.inr hy)⟩

/-- C2: the best-snapshot extension writes `yolov3_snapshot.npz` under a
`MinValueTrigger` checked every `snapshot_interval` iterations; the
tracked key is `validation/main/loss` when a validation set path is
supplied and `main/loss` otherwise; and the trigger fires at a check
exactly when the observed metric is strictly below every value observed
at the earlier checks. -/
theorem best_snapshot_policy (a : Args) (ns : List String) (vs : List ℚ)
    (i : Nat) (h : i < vs.length) :
    (mainConfig a ns).bestSnapshot.filename = "yolov3_snapshot.npz" ∧
    (mainConfig a ns).bestSnapshot.trigger =
      TriggerCfg.minValue (mainConfig a ns).snapshotKey a.snapshot_interval ∧
    (0 < a.valid.length →
      (mainConfig a ns).snapshotKey = "validation/main/loss") ∧
    (a.valid.length = 0 → (mainConfig a ns).snapshotKey = "main/loss") ∧
    (minTriggerFiresAt vs i = true ↔
      ∀ j, j < i → vs.getD i 0 < vs.getD j 0) := by
  refine ⟨rfl, rfl, ?_, ?_, ?_⟩
  · intro hv
    simp [mainConfig, hv]
  · intro hv
    simp [mainConfig, hv]
  · rw [minTriggerFiresAt, minValueFires_iff]
    constructor
    · intro hf j hj
      have hjl : j < vs.length := lt_trans hj h
      have hmem : vs.getD j 0 ∈ vs.take i := by
        rw [List.getD_eq_getElem _ _ hjl]
        have hjt : j < (vs.take i).length := by
          rw [List.length_take]
          exact lt_min_iff.2 ⟨hj, hjl⟩
        have := List.getElem_mem hjt
        rwa [List.getElem_take] at this
      exact hf _ hmem
    · intro hall x hx
      obtain ⟨j, hj, rfl⟩ := List.mem_iff_getElem.1 hx
      have hj' : j < i := by
        rw [List.length_take] at hj
        exact (lt_min_iff.1 hj).1
      have hjl : j < vs.length := lt_trans hj' h
      have := hall j hj'
      rw [List.getD_eq_getElem _ _ hjl] at this
      rwa [List.getElem_take]

/-- Witness for C2 at concrete inputs: with a validation path the key is
the validation loss, and on the metric sequence `[5, 3, 4]` the trigger
fires at check 1 (3 improves on 5) and not at check 2 (4 does not improve
on 3). -/
theorem best_snapshot_policy_witness :
    (mainConfig (argsFrom { valid := some "v.txt" }) []).snapshotKey =
      "validation/main/loss" ∧
    minTriggerFiresAt [5, 3, 4] 1 = true ∧
    minTriggerFiresAt [5, 3, 4] 2 = false := by
  refine ⟨(best_snapshot_policy (argsFrom { valid := some "v.txt" }) [] [0] 0
      (by decide)).2.2.1 (by decide), ?_, ?_⟩
  · exact (best_snapshot_policy defaultArgs [] [5, 3, 4] 1
      (by decide)).2.2.2.2.mpr (by decide)
  · have h := (best_snapshot_policy defaultArgs [] [5, 3, 4] 2
      (by decide)).2.2.2.2
    cases hf : minTriggerFiresAt [5, 3, 4] 2 with
    | false => rfl
    | true => exact absurd ((h.mp hf) 1 (by decide)) (by decide)

/-- C6: the trainer stop trigger is `(args.iteration, 'iteration')` and
the final snapshot `yolov3_final.npz` also fires on that interval
trigger; among the iterations `1..args.iteration` of a run, that trigger
fires exactly at `t = args.iteration` — once, at the last iteration. -/
theorem final_snapshot_once (a : Args) (ns : List String) (t : Int) :
    (mainConfig a ns).stopTrigger = a.iteration ∧
    (mainConfig a ns).finalSnapshot.filename = "yolov3_final.npz" ∧
    (mainConfig a ns).finalSnapshot.trigger = TriggerCfg.interval a.iteration ∧
    (1 ≤ t → t ≤ a.iteration →
      (intervalFires a.iteration t = true ↔ t = a.iteration)) := by
  refine ⟨rfl, rfl, rfl, ?_⟩
  intro ht1 ht2
  simp only [intervalFires, beq_iff_eq]
  constructor
  · intro hmod
    have hd : a.iteration ∣ t := Int.dvd_of_emod_eq_zero hmod
    have := Int.le_of_dvd (by omega) hd
    omega
  · rintro rfl
    exact Int.emod_self

/-- Witness for C6 at concrete inputs: with the default 50200 iterations
the final-snapshot trigger fires at iteration 50200 and not at 100. -/
theorem final_snapshot_once_witness :
    intervalFires 50200 50200 = true ∧ intervalFires 50200 100 = false := by
  have h := (final_snapshot_once defaultArgs [] 50200).2.2.2
    (by decide) (by decide)
  have h2 := (final_snapshot_once defaultArgs [] 100).2.2.2
    (by decide) (by decide)
  refine ⟨h.mpr (by decide), ?_⟩
  cases hf : intervalFires (50200 : Int) 100 with
  | false => rfl
  | true => exact absurd (h2.mp hf) (by decide)

/-- C3: the `CropSizeUpdater` is constructed with the candidate list
`[(10+i)*32 for i in range(0,5)] = [320, 352, 384, 416, 448]` and cutoff
`args.iteration - 200`; before the cutoff the selected size is drawn from
that set, and at or past the cutoff the size is frozen. -/
theorem crop_size_schedule (a : Args) (ns : List String) (t u : Nat) :
    (mainConfig a ns).cropSizeUpdater.sizes = [320, 352, 384, 416, 448] ∧
    (mainConfig a ns).cropSizeUpdater.sizes =
      (List.range 5).map (fun i => (10 + (i : Int)) * 32) ∧
    (mainConfig a ns).cropSizeUpdater.cutoff = a.iteration - 200 ∧
    ((t : Int) < a.iteration - 200 →
      cropSize (mainConfig a ns).cropSizeUpdater.sizes
        (mainConfig a ns).cropSizeUpdater.cutoff t ∈
        ([320, 352, 384, 416, 448] : List Int)) ∧
    (a.iteration - 200 ≤ (t : Int) → a.iteration - 200 ≤ (u : Int) →
      cropSize (mainConfig a ns).cropSizeUpdater.sizes
          (mainConfig a ns).cropSizeUpdater.cutoff t =
        cropSize (mainConfig a ns).cropSizeUpdater.sizes
          (mainConfig a ns).cropSizeUpdater.cutoff u) := by
  have hS0 : (List.range 5).map (fun i => (10 + (i : Int)) * 32) =
      [320, 352, 384, 416, 448] := by decide
  have hS : (mainConfig a ns).cropSizeUpdater.sizes = [320, 352, 384, 416, 448] := hS0
  have hC : (mainConfig a ns).cropSizeUpdater.cutoff = a.iteration - 200 := rfl
  refine ⟨hS, rfl, hC, ?_, ?_⟩
  · intro ht
    rw [hS, hC]
    have hcn : 0 < (a.iteration - 200).toNat := by omega
    have htc : t < (a.iteration - 200).toNat := by omega
    unfold cropSize
    rw [if_pos ht]
    have hidx : t * ([320, 352, 384, 416, 448] : List Int).length /
        (a.iteration - 200).toNat < 5 := by
      show t * 5 / (a.iteration - 200).toNat < 5
      rw [Nat.div_lt_iff_lt_mul hcn]
      omega
    rw [List.getD_eq_getElem _ _ (by simpa using hidx)]
    exact List.getElem_mem _
  · intro h1 h2
    rw [hS, hC]
    unfold cropSize
    rw [if_neg (not_lt.2 h1), if_neg (not_lt.2 h2)]

/-- Witness for C3 at concrete inputs: with the default 50200 iterations
the cutoff is 50000; at iteration 100 the selected size is in the
candidate set, and the size is frozen between iterations 50000 and
60000. -/
theorem crop_size_schedule_witness :
    cropSize [320, 352, 384, 416, 448] 50000 100 ∈
      ([320, 352, 384, 416, 448] : List Int) ∧
    cropSize [320, 352, 384, 416, 448] 50000 50000 =
      cropSize [320, 352, 384, 416, 448] 50000 60000 :=
  ⟨(crop_size_schedule defaultArgs [] 100 0).2.2.2.1 (by decide),
   (crop_size_schedule defaultArgs [] 50000 60000).2.2.2.2 (by decide) (by decide)⟩

/-- C4 (amended): `LogReport`, `PlotReport` and `PrintReport` are
registered with the `display_interval` trigger, while `ProgressBar` is
constructed with `update_interval=1` and so updates every iteration; all
four are observational and leave training state untouched. -/
theorem reporting_extension_intervals (a : Args) (ns : List String) :
    (mainConfig a ns).logReport.interval = a.display_interval ∧
    (mainConfig a ns).plotReport.interval = a.display_interval ∧
    (mainConfig a ns).printReport.interval = a.display_interval ∧
    (mainConfig a ns).progressBar.interval = 1 ∧
    (mainConfig a ns).logReport.mutatesState = false ∧
    (mainConfig a ns).plotReport.mutatesState = false ∧
    (mainConfig a ns).printReport.mutatesState = false ∧
    (mainConfig a ns).progressBar.mutatesState = false :=
  ⟨rfl, rfl, rfl, rfl, rfl, rfl, rfl, rfl⟩

/-- Counterexample to C4 as stated: with the default arguments
(`display_interval = 100`), the `ProgressBar` registration does not fire
every `display_interval` iterations — it is built with
`update_interval=1`. -/
theorem reporting_extension_intervals_cex :
    ¬ ((mainConfig defaultArgs []).progressBar.interval =
        defaultArgs.display_interval) := by
  decide

/-- C5 (amended): no flag of the parser is declared `required`, so
argument resolution never exits with a usage error; in particular a
command line missing `--names` or `--train` parses successfully, those
paths resolving to `None`. -/
theorem parse_never_usage_error (c : CmdLine) :
    parseArgs c = Except.ok (argsFrom c) ∧
    (parseArgs c).isOk = true ∧
    (c.names = none → (argsFrom c).names = none) ∧
    (c.train = none → (argsFrom c).train = none) := by
  have hok : parseArgs c = Except.ok (argsFrom c) := by
    simp [parseArgs, argTable]
  refine ⟨hok, by rw [hok]; rfl, fun h => ?_, fun h => ?_⟩
  · simp [argsFrom, h]
  · simp [argsFrom, h]

/-- Witness for C5 (amended) at a concrete input: the empty command line
parses successfully with both dataset paths absent. -/
theorem parse_never_usage_error_witness :
    (parseArgs {}).isOk = true ∧
    (argsFrom ({} : CmdLine)).names = none ∧
    (argsFrom ({} : CmdLine)).train = none :=
  ⟨(parse_never_usage_error {}).2.1,
   (parse_never_usage_error {}).2.2.1 rfl,
   (parse_never_usage_error {}).2.2.2 rfl⟩

/-- Counterexample to C5 as stated: with `--names` and `--train` missing
from the command line, argument resolution does not fail — `parse_args`
returns the namespace with the default values. -/
theorem parse_missing_names_succeeds :
    parseArgs {} = Except.ok defaultArgs ∧
    ({} : CmdLine).names = none ∧ ({} : CmdLine).train = none :=
  ⟨rfl, rfl, rfl⟩

end YOLOv3Train
